import Mathlib

/-!
Verification of the benchmark-ingestion scripts:
`scripts/benchmark_to_prometheus.py` (Shape-A decoder, exposition renderer,
per-file accumulation), `scripts/push_with_remote_write.py` and
`scripts/push_with_protobuf.py` (Shape-B name splitting), and
`scripts/metrics_server.py` (HTTP snapshot server).

The Python code is shallowly embedded: JSON values become an inductive
`Json` type, the dynamic `dict.get` / `int()` / `len()` operations become
`Except`-valued functions mirroring Python's raising behaviour, and string
formatting mirrors the f-strings of the source.
-/

/-- A JSON value as produced by `json.load`. Numbers are modelled as
integers (the claims under study do not depend on float rounding);
objects carry their key/value pairs in insertion order, and a lookup
returns the last binding for a key, matching the dict `json.load`
builds. -/
inductive Json where
  | null
  | bool (b : Bool)
  | num (n : Int)
  | str (s : String)
  | arr (elems : List Json)
  | obj (fields : List (String × Json))
deriving Repr

/-- Last binding for a key, as in a Python dict built by `json.load`
(later duplicate keys overwrite earlier ones). -/
def jlookup (fields : List (String × Json)) (k : String) : Option Json :=
  fields.reverse.lookup k

mutual
/-- Python `repr` of a JSON-shaped value, as used by `str()` inside
f-strings for non-string values. Quote-style selection for strings is
simplified to always-single-quote. -/
def pyReprOf : Json → String
  | .null => "None"
  | .bool b => if b then "True" else "False"
  | .num n => toString n
  | .str s => "\x27" ++ s ++ "\x27"
  | .arr elems => "[" ++ String.intercalate ", " (pyReprList elems) ++ "]"
  | .obj fields => "\x7b" ++ String.intercalate ", " (pyReprPairs fields) ++ "\x7d"

def pyReprList : List Json → List String
  | [] => []
  | j :: js => pyReprOf j :: pyReprList js

def pyReprPairs : List (String × Json) → List String
  | [] => []
  | (k, v) :: kvs => ("\x27" ++ k ++ "\x27: " ++ pyReprOf v) :: pyReprPairs kvs
end

/-- Python `str()` of a JSON-shaped value: identity on strings,
`repr` otherwise. This is the conversion an f-string applies. -/
def pyStrOf : Json → String
  | .str s => s
  | j => pyReprOf j

/-- Python `d.get(k, default)`: raises `AttributeError` when `d` is not a
dict, otherwise returns the binding for `k` or the default. -/
def dictGet (j : Json) (k : String) (dflt : Json) : Except String Json :=
  match j with
  | .obj fields => .ok ((jlookup fields k).getD dflt)
  | _ => .error "AttributeError: object has no attribute get"

/-- Python `int(x)`: integers pass through, booleans map to 0/1, strings
are parsed as integer literals (`ValueError` when not numeric), anything
else raises `TypeError`. -/
def pyInt : Json → Except String Int
  | .num n => .ok n
  | .bool b => .ok (if b then 1 else 0)
  | .str s =>
    match s.toInt? with
    | some n => .ok n
    | none => .error "ValueError: invalid literal for int"
  | _ => .error "TypeError: int argument must be a number or string"

/-- Python `len(x)` for JSON-shaped values: sequences, strings and dicts
have a length, anything else raises `TypeError`. -/
def pyLen : Json → Except String Nat
  | .arr elems => .ok elems.length
  | .str s => .ok s.length
  | .obj fields => .ok fields.length
  | _ => .error "TypeError: object has no len"

/-- Python `for x in j`: lists yield their elements, dicts their keys,
strings their characters; anything else raises `TypeError`. -/
def pyIter : Json → Except String (List Json)
  | .arr elems => .ok elems
  | .obj fields => .ok (fields.map fun p => .str p.1)
  | .str s => .ok (s.data.map fun c => .str (String.singleton c))
  | _ => .error "TypeError: object is not iterable"

/-- `int(d.get(k, 0))` — the coercion applied to each of the six numeric
metric fields in `parse_raw_benchmark_json`. -/
def intOfGet (d : Json) (k : String) : Except String Int := do
  let v ← dictGet d k (.num 0)
  pyInt v

/-- The canonical record built by `parse_raw_benchmark_json` (one dict
per benchmark). String-valued fields hold the f-string rendering
(`pyStrOf`) of the underlying JSON value. -/
structure BenchmarkRecord where
  testName : String
  className : String
  methodName : String
  minTimeNs : Int
  medianTimeNs : Int
  maxTimeNs : Int
  minAllocationCount : Int
  medianAllocationCount : Int
  maxAllocationCount : Int
  iterations : Nat
  device : String
  brand : String
deriving Repr, DecidableEq

/-- Body of the `for benchmark in benchmarks` loop of
`parse_raw_benchmark_json` (`benchmark_to_prometheus.py`), building one
record. -/
def parseBenchmark (device brand : String) (benchmark : Json) :
    Except String BenchmarkRecord := do
  let nameJ ← dictGet benchmark "name" (.str "unknown")
  let classJ ← dictGet benchmark "className" (.str "unknown")
  let fullTestName := pyStrOf classJ ++ "." ++ pyStrOf nameJ
  let metrics ← dictGet benchmark "metrics" (.obj [])
  let timeNs ← dictGet metrics "timeNs" (.obj [])
  let minTime ← intOfGet timeNs "minimum"
  let medianTime ← intOfGet timeNs "median"
  let maxTime ← intOfGet timeNs "maximum"
  let allocCount ← dictGet metrics "allocationCount" (.obj [])
  let minAlloc ← intOfGet allocCount "minimum"
  let medianAlloc ← intOfGet allocCount "median"
  let maxAlloc ← intOfGet allocCount "maximum"
  let timeRuns ← dictGet timeNs "runs" (.arr [])
  let iterations ← pyLen timeRuns
  .ok { testName := fullTestName
        className := pyStrOf classJ
        methodName := pyStrOf nameJ
        minTimeNs := minTime
        medianTimeNs := medianTime
        maxTimeNs := maxTime
        minAllocationCount := minAlloc
        medianAllocationCount := medianAlloc
        maxAllocationCount := maxAlloc
        iterations := iterations
        device := device
        brand := brand }

/-- The `for benchmark in benchmarks` loop: records are appended in
order; an exception from any iteration propagates, aborting the file. -/
def parseBenchmarks (device brand : String) :
    List Json → Except String (List BenchmarkRecord)
  | [] => .ok []
  | b :: bs => do
    let r ← parseBenchmark device brand b
    let rs ← parseBenchmarks device brand bs
    .ok (r :: rs)

/-- `parse_raw_benchmark_json` (`benchmark_to_prometheus.py`, Shape A):
extracts device/brand from `context.build` and decodes every entry of
`benchmarks`. -/
def parseRawBenchmarkJson (data : Json) : Except String (List BenchmarkRecord) := do
  let context ← dictGet data "context" (.obj [])
  let buildInfo ← dictGet context "build" (.obj [])
  let deviceJ ← dictGet buildInfo "model" (.str "unknown")
  let brandJ ← dictGet buildInfo "brand" (.str "unknown")
  let benchmarksJ ← dictGet data "benchmarks" (.arr [])
  let benchmarks ← pyIter benchmarksJ
  parseBenchmarks (pyStrOf deviceJ) (pyStrOf brandJ) benchmarks

/-- The Shape-A end-to-end example of spec §8: one benchmark with
timing data, three runs, all allocation counts zero. -/
def exampleShapeA : Json :=
  .obj [("benchmarks", .arr [.obj [("name", .str "bench1"),
          ("className", .str "com.x.Y"),
          ("metrics", .obj [("timeNs", .obj [("minimum", .num 10),
            ("median", .num 20), ("maximum", .num 30),
            ("runs", .arr [.num 1, .num 2, .num 3])])])]]),
        ("context", .obj [("build", .obj [("model", .str "Pixel"),
          ("brand", .str "Google")])])]

/-- The record the Shape-A decoder produces for `exampleShapeA`. -/
def exampleRecord : BenchmarkRecord :=
  { testName := "com.x.Y.bench1", className := "com.x.Y", methodName := "bench1",
    minTimeNs := 10, medianTimeNs := 20, maxTimeNs := 30,
    minAllocationCount := 0, medianAllocationCount := 0, maxAllocationCount := 0,
    iterations := 3, device := "Pixel", brand := "Google" }

example : parseRawBenchmarkJson exampleShapeA = .ok [exampleRecord] := by rfl

/-! ## Exposition renderer (`generate_prometheus_metrics`) -/

/-- Python `s.replace('"', '\\"')` at the character level: the pattern
is a single character, so each `"` is rewritten to `\"` and every other
character is kept. -/
def escapeQuotes : List Char → List Char
  | [] => []
  | c :: cs => if c = '"' then '\\' :: '"' :: escapeQuotes cs else c :: escapeQuotes cs

/-- The label-value escaping of `generate_prometheus_metrics`
(`benchmark_to_prometheus.py` lines 110-112). -/
def escapeQ (s : String) : String := ⟨escapeQuotes s.data⟩

/-- Un-escaping as the specification defines it: replace every `\"`
back with `"`. Modelled from the spec: this operation does not occur in
the source; Python `.replace` on a two-character pattern scans left to
right without overlap, which is what the recursion does. -/
def unescapeQuotes : List Char → List Char
  | [] => []
  | [c] => [c]
  | c1 :: c2 :: cs =>
    if c1 = '\\' ∧ c2 = '"' then '"' :: unescapeQuotes cs
    else c1 :: unescapeQuotes (c2 :: cs)

/-- String-level un-escaping (spec-defined round-trip inverse). -/
def unescapeQ (s : String) : String := ⟨unescapeQuotes s.data⟩

/-- The label block built by `generate_prometheus_metrics`: the
f-string `test="…",class="…",method="…",branch="…",device="…",brand="…",commit="…"`.
Only `test`, `class` and `method` pass through the quote escaping. -/
def labelsFor (r : BenchmarkRecord) (gitCommit branch : String) : String :=
  "test=\"" ++ escapeQ r.testName ++ "\",class=\"" ++ escapeQ r.className ++
  "\",method=\"" ++ escapeQ r.methodName ++ "\",branch=\"" ++ branch ++
  "\",device=\"" ++ r.device ++ "\",brand=\"" ++ r.brand ++
  "\",commit=\"" ++ gitCommit ++ "\""

/-- The label block as the specification describes it: every one of the
seven label values quote-escaped. Used to compare the code's rendering
against the spec's claim. -/
def labelsForSpec (r : BenchmarkRecord) (gitCommit branch : String) : String :=
  "test=\"" ++ escapeQ r.testName ++ "\",class=\"" ++ escapeQ r.className ++
  "\",method=\"" ++ escapeQ r.methodName ++ "\",branch=\"" ++ escapeQ branch ++
  "\",device=\"" ++ escapeQ r.device ++ "\",brand=\"" ++ escapeQ r.brand ++
  "\",commit=\"" ++ escapeQ gitCommit ++ "\""

/-- One emitted metric observation, before final string assembly:
metric family name, rendered label block, optional `stat` label, and
the integer sample value. -/
structure MetricLine where
  name : String
  labels : String
  stat : Option String
  value : Int
deriving Repr, DecidableEq

/-- Final string assembly of one metric line, mirroring the f-strings
`name{labels,stat="…"} value` and `name{labels} value`. -/
def renderMetricLine (m : MetricLine) : String :=
  match m.stat with
  | some s => m.name ++ "\x7b" ++ m.labels ++ ",stat=\"" ++ s ++ "\"\x7d " ++ toString m.value
  | none => m.name ++ "\x7b" ++ m.labels ++ "\x7d " ++ toString m.value

/-- The lines appended for one record by the loop body of
`generate_prometheus_metrics`: time family gated on `medianTimeNs > 0`,
allocation family gated on `medianAllocationCount > 0`, iterations
gated on `iterations > 0`, in that fixed order. -/
def recordLines (gitCommit branch : String) (result : BenchmarkRecord) :
    List MetricLine :=
  let labels := labelsFor result gitCommit branch
  (if result.medianTimeNs > 0 then
    [⟨"android_benchmark_time_ns", labels, some "min", result.minTimeNs⟩,
     ⟨"android_benchmark_time_ns", labels, some "median", result.medianTimeNs⟩,
     ⟨"android_benchmark_time_ns", labels, some "max", result.maxTimeNs⟩]
   else []) ++
  (if result.medianAllocationCount > 0 then
    [⟨"android_benchmark_allocations", labels, some "min", result.minAllocationCount⟩,
     ⟨"android_benchmark_allocations", labels, some "median", result.medianAllocationCount⟩,
     ⟨"android_benchmark_allocations", labels, some "max", result.maxAllocationCount⟩]
   else []) ++
  (if result.iterations > 0 then
    [⟨"android_benchmark_iterations", labels, none, (result.iterations : Int)⟩]
   else [])

/-- `generate_prometheus_metrics` (`benchmark_to_prometheus.py`): one
pass over the records, appending each record's lines in order. -/
def generatePrometheusMetrics :
    List BenchmarkRecord → String → String → List String
  | [], _, _ => []
  | r :: rs, gitCommit, branch =>
    (recordLines gitCommit branch r).map renderMetricLine ++
      generatePrometheusMetrics rs gitCommit branch

/-! ## Shape-B name splitting
(`push_with_remote_write.py` lines 66-69 and `push_with_protobuf.py`
lines 55-58, identical code in both). -/

/-- Split a character list at its LAST occurrence of `sep`, returning
the parts before and after it; `none` when `sep` does not occur. -/
def splitAtLast (sep : Char) : List Char → Option (List Char × List Char)
  | [] => none
  | c :: rest =>
    match splitAtLast sep rest with
    | some (l, r) => some (c :: l, r)
    | none => if c = sep then some ([], rest) else none

/-- The Shape-B derivation of `(class_name, method_name)` from
`testName`: `parts = test_name.rsplit('.', 1)`, then
`class_name = parts[0] if len(parts) > 1 else 'unknown'` and
`method_name = parts[1] if len(parts) > 1 else test_name`. -/
def shapeBNames (testName : String) : String × String :=
  match splitAtLast '.' testName.data with
  | some (l, r) => (⟨l⟩, ⟨r⟩)
  | none => ("unknown", testName)

example : shapeBNames "com.x.Y.bench1" = ("com.x.Y", "bench1") := by rfl
example : shapeBNames "bench1" = ("unknown", "bench1") := by rfl

/-! ## Per-file accumulation (`main` of `benchmark_to_prometheus.py`) -/

/-- Loading one discovered file: `none` stands for content that
`json.load` rejects; valid JSON is decoded by the Shape-A decoder, whose
errors also propagate to the per-file handler. -/
def loadAndParse : Option Json → Except String (List BenchmarkRecord)
  | none => .error "json.decoder.JSONDecodeError"
  | some j => parseRawBenchmarkJson j

/-- The diagnostic `f"Error processing {json_file.name}: {e}"`. -/
def errMsg (name e : String) : String := "Error processing " ++ name ++ ": " ++ e

/-- The accumulation loop of `main`: each file is `(name, content)`;
successes extend the record list, failures append a diagnostic and
processing continues with the remaining files. -/
def accumulateFiles :
    List (String × Option Json) → List BenchmarkRecord × List String
  | [] => ([], [])
  | (name, content) :: rest =>
    match loadAndParse content with
    | .ok rs =>
      let (recs, errs) := accumulateFiles rest
      (rs ++ recs, errs)
    | .error e =>
      let (recs, errs) := accumulateFiles rest
      (recs, errMsg name e :: errs)

/-! ## Snapshot server (`metrics_server.py`) -/

/-- One call the request handler makes on itself / its output stream. -/
inductive HandlerEvent where
  | sendResponse (code : Nat)
  | sendHeader (name value : String)
  | endHeaders
  | write (data : String)
deriving Repr, DecidableEq

/-- `MetricsHandler.do_GET` (`metrics_server.py`): the sequence of
handler calls made for a request with the given path, with the served
content captured in the handler's closure. The 500 branch only fires on
an I/O exception, which has no counterpart in this pure model. -/
def do_GET (metricsContent : String) (path : String) : List HandlerEvent :=
  if path = "/metrics" then
    [.sendResponse 200,
     .sendHeader "Content-Type" "text/plain; version=0.0.4",
     .endHeaders,
     .write metricsContent]
  else
    [.sendResponse 404, .endHeaders]

/-- Status of a handler-event trace: the first `send_response` code. -/
def statusOf : List HandlerEvent → Nat
  | [] => 0
  | .sendResponse code :: _ => code
  | _ :: es => statusOf es

/-- Content-Type of a trace: the first `Content-Type` header sent. -/
def contentTypeOf : List HandlerEvent → Option String
  | [] => none
  | .sendHeader n v :: es => if n = "Content-Type" then some v else contentTypeOf es
  | _ :: es => contentTypeOf es

/-- Body of a trace: everything written to the response stream. -/
def bodyOf : List HandlerEvent → String
  | [] => ""
  | .write s :: es => s ++ bodyOf es
  | _ :: es => bodyOf es

/-- The response an HTTP client observes for a handler-event trace. -/
structure HttpResponse where
  status : Nat
  contentType : Option String
  body : String
deriving Repr, DecidableEq

/-- Assemble the observed response from a handler-event trace. -/
def responseOf (es : List HandlerEvent) : HttpResponse :=
  ⟨statusOf es, contentTypeOf es, bodyOf es⟩

/-! ## Further concrete inputs used by witnesses and counterexamples -/

/-- A Shape-A input whose `timeNs.minimum` is present but non-numeric
(JSON `null`), so Python `int(None)` raises. -/
def badNumericShapeA : Json :=
  .obj [("benchmarks", .arr [.obj [("name", .str "b"),
          ("className", .str "c"),
          ("metrics", .obj [("timeNs", .obj [("minimum", .null)])])]])]

/-- A record whose `device` value contains a literal double quote. -/
def quotedDeviceRecord : BenchmarkRecord :=
  { testName := "t", className := "c", methodName := "m",
    minTimeNs := 1, medianTimeNs := 2, maxTimeNs := 3,
    minAllocationCount := 0, medianAllocationCount := 0, maxAllocationCount := 0,
    iterations := 1, device := "Pix\"el", brand := "g" }

/-! ## Helper lemmas -/

theorem strAppendEmpty (s : String) : s ++ "" = s := by
  cases s with
  | mk data =>
    show String.mk (data ++ []) = String.mk data
    rw [List.append_nil]

theorem bind_ok_destruct {α β : Type} {x : Except String α}
    {f : α → Except String β} {b : β} (h : x >>= f = .ok b) :
    ∃ a, x = .ok a ∧ f a = .ok b := by
  cases x with
  | error e => simp [Bind.bind, Except.bind] at h
  | ok a => exact ⟨a, rfl, by simpa [Bind.bind, Except.bind] using h⟩

theorem escapeQuotes_of_not_mem (cs : List Char) (h : '"' ∉ cs) :
    escapeQuotes cs = cs := by
  induction cs with
  | nil => rfl
  | cons c cs ih =>
    simp only [List.mem_cons, not_or] at h
    rw [escapeQuotes, if_neg fun hc => h.1 hc.symm, ih h.2]

theorem escapeQ_of_not_mem (s : String) (h : '"' ∉ s.data) : escapeQ s = s := by
  show String.mk (escapeQuotes s.data) = s
  rw [escapeQuotes_of_not_mem s.data h]

theorem escapeQuotes_ne_quote_cons (cs t : List Char) :
    escapeQuotes cs ≠ '"' :: t := by
  cases cs with
  | nil => intro h; simp [escapeQuotes] at h
  | cons c cs =>
    intro h
    by_cases hc : c = '"'
    · rw [escapeQuotes, if_pos hc] at h
      exact absurd (List.cons.inj h).1 (by decide)
    · rw [escapeQuotes, if_neg hc] at h
      exact hc (List.cons.inj h).1

theorem unescape_escape (cs : List Char) :
    unescapeQuotes (escapeQuotes cs) = cs := by
  induction cs with
  | nil => rfl
  | cons c cs ih =>
    by_cases hc : c = '"'
    · subst hc
      rw [escapeQuotes, if_pos rfl]
      simp [unescapeQuotes, ih]
    · rw [escapeQuotes, if_neg hc]
      cases hE : escapeQuotes cs with
      | nil =>
        rw [hE] at ih
        have hcs : cs = [] := by simpa [unescapeQuotes] using ih.symm
        subst hcs
        rfl
      | cons h2 t =>
        have hne : ¬(c = '\\' ∧ h2 = '"') := by
          rintro ⟨_, h2q⟩
          exact escapeQuotes_ne_quote_cons cs t (h2q ▸ hE)
        rw [unescapeQuotes, if_neg hne, ← hE, ih]

theorem splitAtLast_eq_none_iff (sep : Char) (cs : List Char) :
    splitAtLast sep cs = none ↔ sep ∉ cs := by
  induction cs with
  | nil => simp [splitAtLast]
  | cons c cs ih =>
    rw [splitAtLast]
    cases hs : splitAtLast sep cs with
    | some p => simp [List.mem_cons, (ih.not).mp (by simp [hs])]
    | none =>
      have hmem : sep ∉ cs := ih.mp hs
      by_cases hc : c = sep
      · simp [if_pos hc, hc]
      · simp [if_neg hc, hmem]
        exact fun h => hc h.symm

theorem splitAtLast_spec (sep : Char) (cs l r : List Char)
    (h : splitAtLast sep cs = some (l, r)) : cs = l ++ sep :: r := by
  induction cs generalizing l r with
  | nil => simp [splitAtLast] at h
  | cons c cs ih =>
    rw [splitAtLast] at h
    cases hs : splitAtLast sep cs with
    | some p =>
      obtain ⟨l1, r1⟩ := p
      rw [hs] at h
      obtain ⟨hl, hr⟩ := Prod.mk.inj (Option.some.inj h)
      subst hl; subst hr
      simpa using congrArg (c :: ·) (ih l1 r1 hs)
    | none =>
      rw [hs] at h
      by_cases hc : c = sep
      · rw [if_pos hc] at h
        obtain ⟨hl, hr⟩ := Prod.mk.inj (Option.some.inj h)
        subst hl; subst hr
        simp [hc]
      · rw [if_neg hc] at h
        exact absurd h (by simp)

theorem parseBenchmark_inv (d b : String) (j : Json) (r : BenchmarkRecord)
    (h : parseBenchmark d b j = .ok r) :
    r.testName = r.className ++ "." ++ r.methodName := by
  unfold parseBenchmark at h
  obtain ⟨nameJ, _, h⟩ := bind_ok_destruct h
  obtain ⟨classJ, _, h⟩ := bind_ok_destruct h
  obtain ⟨metrics, _, h⟩ := bind_ok_destruct h
  obtain ⟨timeNs, _, h⟩ := bind_ok_destruct h
  obtain ⟨minTime, _, h⟩ := bind_ok_destruct h
  obtain ⟨medianTime, _, h⟩ := bind_ok_destruct h
  obtain ⟨maxTime, _, h⟩ := bind_ok_destruct h
  obtain ⟨allocCount, _, h⟩ := bind_ok_destruct h
  obtain ⟨minAlloc, _, h⟩ := bind_ok_destruct h
  obtain ⟨medianAlloc, _, h⟩ := bind_ok_destruct h
  obtain ⟨maxAlloc, _, h⟩ := bind_ok_destruct h
  obtain ⟨timeRuns, _, h⟩ := bind_ok_destruct h
  obtain ⟨iters, _, h⟩ := bind_ok_destruct h
  cases Except.ok.inj h
  rfl

theorem parseBenchmarks_inv (d b : String) (js : List Json)
    (recs : List BenchmarkRecord) (h : parseBenchmarks d b js = .ok recs) :
    ∀ r ∈ recs, r.testName = r.className ++ "." ++ r.methodName := by
  induction js generalizing recs with
  | nil =>
    rw [parseBenchmarks] at h
    cases Except.ok.inj h
    intro r hr
    simp at hr
  | cons j js ih =>
    rw [parseBenchmarks] at h
    obtain ⟨r0, h1, h⟩ := bind_ok_destruct h
    obtain ⟨rs, h2, h⟩ := bind_ok_destruct h
    cases Except.ok.inj h
    intro r hr
    rcases List.mem_cons.mp hr with hEq | hMem
    · subst hEq
      exact parseBenchmark_inv d b j r h1
    · exact ih rs h2 r hMem

theorem parseRawBenchmarkJson_inv (data : Json) (recs : List BenchmarkRecord)
    (h : parseRawBenchmarkJson data = .ok recs) :
    ∀ r ∈ recs, r.testName = r.className ++ "." ++ r.methodName := by
  unfold parseRawBenchmarkJson at h
  obtain ⟨context, _, h⟩ := bind_ok_destruct h
  obtain ⟨buildInfo, _, h⟩ := bind_ok_destruct h
  obtain ⟨deviceJ, _, h⟩ := bind_ok_destruct h
  obtain ⟨brandJ, _, h⟩ := bind_ok_destruct h
  obtain ⟨benchmarksJ, _, h⟩ := bind_ok_destruct h
  obtain ⟨benchmarks, _, h⟩ := bind_ok_destruct h
  exact parseBenchmarks_inv _ _ _ _ h

/-! ## Claim theorems -/

/-- C1 counterexample: a Shape-B `testName` without a dot, such as
`"bench1"`, is split into `className = "unknown"` and
`methodName = "bench1"`, and then `className ++ "." ++ methodName`
is `"unknown.bench1"`, not the original `testName` — so the invariant of
the claim fails for this record. -/
theorem C1_counterexample :
    shapeBNames "bench1" = ("unknown", "bench1") ∧
    ("unknown" ++ "." ++ "bench1" : String) ≠ "bench1" := by
  constructor
  · rfl
  · decide

/-- C1 (amended): every record produced by the Shape-A decoder
satisfies `testName = className ++ "." ++ methodName`, and a Shape-B
entry satisfies it whenever its `testName` contains at least one `'.'`;
for dot-free Shape-B names the derived pair is
`("unknown", testName)` and the join identity fails. -/
theorem C1_join_key_amended :
    (∀ (data : Json) (recs : List BenchmarkRecord),
        parseRawBenchmarkJson data = .ok recs →
        ∀ r ∈ recs, r.testName = r.className ++ "." ++ r.methodName) ∧
    (∀ t : String, '.' ∈ t.data →
        (shapeBNames t).1 ++ "." ++ (shapeBNames t).2 = t) := by
  constructor
  · exact parseRawBenchmarkJson_inv
  · intro t h
    obtain ⟨p, hs⟩ : ∃ p, splitAtLast '.' t.data = some p := by
      cases hsp : splitAtLast '.' t.data with
      | none => exact absurd ((splitAtLast_eq_none_iff '.' t.data).mp hsp) (by simpa using h)
      | some p => exact ⟨p, rfl⟩
    obtain ⟨l, r⟩ := p
    have hspec := splitAtLast_spec '.' t.data l r hs
    unfold shapeBNames
    rw [hs]
    cases t with
    | mk data =>
      have hdata : data = l ++ '.' :: r := hspec
      show String.mk ((l ++ ['.']) ++ r) = String.mk data
      rw [hdata]
      simp

/-- C1 witness: the amended invariant holds for the decoded Shape-A
example record and for the dotted Shape-B name `"com.x.Y.bench1"`. -/
theorem C1_join_key_amended_witness :
    exampleRecord.testName = exampleRecord.className ++ "." ++ exampleRecord.methodName ∧
    (shapeBNames "com.x.Y.bench1").1 ++ "." ++ (shapeBNames "com.x.Y.bench1").2 =
      "com.x.Y.bench1" :=
  ⟨C1_join_key_amended.1 exampleShapeA [exampleRecord] (by rfl) exampleRecord (by simp),
   C1_join_key_amended.2 "com.x.Y.bench1" (by decide)⟩

/-- C2: per record, the `android_benchmark_time_ns` family is all-or-
none — no line when `medianTimeNs = 0`, and exactly the three stat
lines `min`, `median`, `max` in that order when `medianTimeNs > 0`. -/
theorem C2_time_line_gating (r : BenchmarkRecord) (gitCommit branch : String) :
    (r.medianTimeNs = 0 →
      (recordLines gitCommit branch r).filter
        (fun l => l.name = "android_benchmark_time_ns") = []) ∧
    (r.medianTimeNs > 0 →
      (recordLines gitCommit branch r).filter
        (fun l => l.name = "android_benchmark_time_ns") =
        [⟨"android_benchmark_time_ns", labelsFor r gitCommit branch, some "min", r.minTimeNs⟩,
         ⟨"android_benchmark_time_ns", labelsFor r gitCommit branch, some "median", r.medianTimeNs⟩,
         ⟨"android_benchmark_time_ns", labelsFor r gitCommit branch, some "max", r.maxTimeNs⟩]) := by
  have hA : ¬("android_benchmark_allocations" = "android_benchmark_time_ns") := by decide
  have hI : ¬("android_benchmark_iterations" = "android_benchmark_time_ns") := by decide
  unfold recordLines
  constructor
  · intro h
    by_cases ha : r.medianAllocationCount > 0 <;> by_cases hi : r.iterations > 0 <;>
      simp [h, ha, hi, hA, hI, List.filter]
  · intro h
    by_cases ha : r.medianAllocationCount > 0 <;> by_cases hi : r.iterations > 0 <;>
      simp [h, ha, hi, hA, hI, List.filter]

/-- C2 witness: the example record has `medianTimeNs = 20 > 0` and its
time lines are exactly the three stat variants in order. -/
theorem C2_time_line_gating_witness :
    (recordLines "c0" "main" exampleRecord).filter
      (fun l => l.name = "android_benchmark_time_ns") =
      [⟨"android_benchmark_time_ns", labelsFor exampleRecord "c0" "main", some "min", 10⟩,
       ⟨"android_benchmark_time_ns", labelsFor exampleRecord "c0" "main", some "median", 20⟩,
       ⟨"android_benchmark_time_ns", labelsFor exampleRecord "c0" "main", some "max", 30⟩] :=
  (C2_time_line_gating exampleRecord "c0" "main").2 (by decide)

/-- C3 counterexample: for a record whose `device` value contains a
literal `"`, the rendered label block keeps that quote unescaped, so it
differs from the all-seven-escaped rendering the claim asserts. -/
theorem C3_counterexample :
    labelsFor quotedDeviceRecord "c0" "main" =
      "test=\"t\",class=\"c\",method=\"m\",branch=\"main\",device=\"Pix\"el\",brand=\"g\",commit=\"c0\"" ∧
    labelsFor quotedDeviceRecord "c0" "main" ≠
      labelsForSpec quotedDeviceRecord "c0" "main" := by
  constructor
  · rfl
  · decide

/-- C3 (amended): only `test`, `class` and `method` are quote-escaped;
`branch`, `device`, `brand` and `commit` are interpolated verbatim, so
the rendered labels agree with the all-escaped form exactly when those
four values contain no `"`. -/
theorem C3_label_escaping_amended (r : BenchmarkRecord) (gitCommit branch : String)
    (hb : '"' ∉ branch.data) (hd : '"' ∉ r.device.data)
    (hbr : '"' ∉ r.brand.data) (hc : '"' ∉ gitCommit.data) :
    labelsFor r gitCommit branch = labelsForSpec r gitCommit branch := by
  unfold labelsFor labelsForSpec
  rw [escapeQ_of_not_mem branch hb, escapeQ_of_not_mem r.device hd,
      escapeQ_of_not_mem r.brand hbr, escapeQ_of_not_mem gitCommit hc]

/-- C3 witness: quote-free metadata renders identically under the code
and under the spec's fully-escaped description. -/
theorem C3_label_escaping_amended_witness :
    labelsFor exampleRecord "c0" "main" = labelsForSpec exampleRecord "c0" "main" :=
  C3_label_escaping_amended exampleRecord "c0" "main"
    (by decide) (by decide) (by decide) (by decide)

/-- C4 counterexample: a Shape-A file whose `timeNs.minimum` is present
but non-numeric (JSON `null`) makes the decode of the whole file fail
(Python `int(None)` raises), instead of coercing the field to 0. -/
theorem C4_counterexample :
    parseRawBenchmarkJson badNumericShapeA =
      .error "TypeError: int argument must be a number or string" := by rfl

/-- C4 (amended): a missing numeric metric field coerces to `0`
(`int(d.get(k, 0))` with the default); a present non-numeric value
makes the file's decode fail rather than coercing to 0. -/
theorem C4_missing_field_amended (fields : List (String × Json)) (k : String)
    (h : jlookup fields k = none) :
    intOfGet (Json.obj fields) k = .ok 0 := by
  unfold intOfGet dictGet
  simp [Bind.bind, Except.bind, h, pyInt]

/-- C4 witness: looking up `minimum` in a `timeNs` object that only has
`median` yields the coerced default `0`. -/
theorem C4_missing_field_amended_witness :
    intOfGet (Json.obj [("median", Json.num 7)]) "minimum" = .ok 0 :=
  C4_missing_field_amended [("median", Json.num 7)] "minimum" (by rfl)

/-- C5: with one malformed and one valid file in the batch (in either
order), accumulation yields exactly the valid file's records in order,
and the malformed file is reported by name without aborting. -/
theorem C5_partial_batch (mName vName : String) (mContent vContent : Option Json)
    (e : String) (rs : List BenchmarkRecord)
    (hm : loadAndParse mContent = .error e)
    (hv : loadAndParse vContent = .ok rs) :
    accumulateFiles [(mName, mContent), (vName, vContent)] = (rs, [errMsg mName e]) ∧
    accumulateFiles [(vName, vContent), (mName, mContent)] = (rs, [errMsg mName e]) := by
  constructor <;> simp [accumulateFiles, hm, hv]

/-- C5 witness: an unparseable file plus the Shape-A example file yield
exactly the example record and one diagnostic naming the bad file. -/
theorem C5_partial_batch_witness :
    accumulateFiles [("bad.json", none), ("good.json", some exampleShapeA)] =
      ([exampleRecord], [errMsg "bad.json" "json.decoder.JSONDecodeError"]) :=
  (C5_partial_batch "bad.json" "good.json" none (some exampleShapeA)
    "json.decoder.JSONDecodeError" [exampleRecord] rfl (by rfl)).1

/-- C7: a GET for exactly `/metrics` is answered 200 with
`Content-Type: text/plain; version=0.0.4` and the snapshot content as
body; any other path is answered 404 with an empty body. -/
theorem C7_get_routing (metricsContent path : String) :
    (path = "/metrics" →
      responseOf (do_GET metricsContent path) =
        ⟨200, some "text/plain; version=0.0.4", metricsContent⟩) ∧
    (path ≠ "/metrics" →
      responseOf (do_GET metricsContent path) = ⟨404, none, ""⟩) := by
  constructor
  · intro h
    rw [do_GET, if_pos h]
    simp [responseOf, statusOf, contentTypeOf, bodyOf, strAppendEmpty]
  · intro h
    rw [do_GET, if_neg h]
    rfl

/-- C7 witness: the routing theorem applied to the snapshot `"a 1"` at
`/metrics` and at a different path. -/
theorem C7_get_routing_witness :
    responseOf (do_GET "a 1" "/metrics") =
      ⟨200, some "text/plain; version=0.0.4", "a 1"⟩ ∧
    responseOf (do_GET "a 1" "/other") = ⟨404, none, ""⟩ :=
  ⟨(C7_get_routing "a 1" "/metrics").1 rfl,
   (C7_get_routing "a 1" "/other").2 (by decide)⟩

/-- C8: the label escaping is the identity (hence idempotent) on
strings without `"`, and un-escaping (replacing `\"` by `"`) undoes the
escaping on every string. -/
theorem C8_escape_algebra (s : String) :
    ('"' ∉ s.data → escapeQ (escapeQ s) = escapeQ s) ∧
    unescapeQ (escapeQ s) = s := by
  constructor
  · intro h
    rw [escapeQ_of_not_mem s h, escapeQ_of_not_mem s h]
  · calc unescapeQ (escapeQ s) = ⟨unescapeQuotes (escapeQuotes s.data)⟩ := rfl
    _ = ⟨s.data⟩ := by rw [unescape_escape]
    _ = s := rfl

/-- C8 witness: idempotence on the quote-free `"abc"` and the round
trip on `"a\"b"`. -/
theorem C8_escape_algebra_witness :
    escapeQ (escapeQ "abc") = escapeQ "abc" ∧
    unescapeQ (escapeQ "a\"b") = "a\"b" :=
  ⟨(C8_escape_algebra "abc").1 (by decide), (C8_escape_algebra "a\"b").2⟩

/-- C9: the renderer distributes over concatenation of record lists —
each record's lines depend only on that record and the run metadata. -/
theorem C9_render_homomorphism (r1 r2 : List BenchmarkRecord)
    (gitCommit branch : String) :
    generatePrometheusMetrics (r1 ++ r2) gitCommit branch =
      generatePrometheusMetrics r1 gitCommit branch ++
        generatePrometheusMetrics r2 gitCommit branch := by
  induction r1 with
  | nil => rfl
  | cons r rs ih => simp [generatePrometheusMetrics, ih]

/-- C10: a Shape-B `testName` without a `'.'` yields
`className = "unknown"` and `methodName` equal to the whole name. -/
theorem C10_dotless_shapeB (t : String) (h : '.' ∉ t.data) :
    shapeBNames t = ("unknown", t) := by
  unfold shapeBNames
  rw [(splitAtLast_eq_none_iff '.' t.data).mpr h]

/-- C10 witness: the dot-free name `"mybench"`. -/
theorem C10_dotless_shapeB_witness :
    shapeBNames "mybench" = ("unknown", "mybench") :=
  C10_dotless_shapeB "mybench" (by decide)
